import Mathlib

/-!
Verification of the media-exif batch pipeline (src/main.py) against its
natural-language specification.

The pipeline is shallowly embedded: JSON documents become an inductive
`Json` type (numbers modelled exactly as rationals), Python dictionary
access and truthiness become explicit functions, filesystem paths become
a stem/suffix record, and the side-effecting writers become pure
functions that return their success flag together with the list of
filesystem effects they perform, in order.
-/

namespace MediaExif

/-- The three non-finite float literals Python `json.load` accepts by
default (`NaN`, `Infinity`, `-Infinity`), which have no rational
value. -/
inductive NonFinite where
  | nan : NonFinite
  | inf : NonFinite
  | neginf : NonFinite
deriving DecidableEq

/-- JSON values as produced by Python `json.load`.  A JSON `null` is its
own constructor; Python maps it to `None`.  Finite numbers are modelled
exactly as rationals; the non-finite literals Python accepts keep their
own constructor.  Objects keep their key order (Python dicts preserve
insertion order and `json` keeps the last duplicate key, duplicates do
not occur in the inputs considered here). -/
inductive Json where
  | null : Json
  | bool (b : Bool) : Json
  | num (q : ℚ) : Json
  | nonfinite (x : NonFinite) : Json
  | str (s : String) : Json
  | arr (elems : List Json) : Json
  | obj (fields : List (String × Json)) : Json

namespace Json

/-- Key lookup in a JSON object (first binding wins), `none` when the
value is not an object or the key is absent.  Models Python `d[k]` /
`d.get(k)` on a dict decoded from JSON. -/
def lookup : Json → String → Option Json
  | obj fields, k => fields.lookup k
  | _, _ => none

/-- Python `k in d` for a decoded JSON object. -/
def hasKey (j : Json) (k : String) : Bool :=
  (j.lookup k).isSome

/-- Whether the top-level value is an object (a Python dict). -/
def isObj : Json → Bool
  | obj _ => true
  | _ => false

end Json

/-- Python `d.get(k)`: `None` both when the key is absent and when the
stored value is JSON `null` (both are Python `None`). -/
def pyGet (j : Json) (k : String) : Option Json :=
  match j.lookup k with
  | some Json.null => none
  | some v => some v
  | none => none

/-- Python truthiness of a value obtained from `d.get(k)`: `None`, empty
strings, zero, empty lists and empty dicts are falsy. -/
def truthy : Option Json → Bool
  | none => false
  | some Json.null => false
  | some (Json.bool b) => b
  | some (Json.num q) => decide (q ≠ 0)
  | some (Json.nonfinite _) => true
  | some (Json.str s) => decide (s ≠ "")
  | some (Json.arr elems) => !elems.isEmpty
  | some (Json.obj fields) => !fields.isEmpty

/-- Python `a or b`: yields `a` when `a` is truthy, else `b`. -/
def pyOr (a b : Option Json) : Option Json :=
  if truthy a then a else b

/-! ### JSON parsing

Model of Python `json.load`, used by `load_json_metadata`
(src/main.py:90-95).  The standard JSON grammar: values are objects,
arrays, strings, numbers, `true`, `false`, `null`; finite numbers are
decoded exactly as rationals, and the non-finite literals `NaN`,
`Infinity` and `-Infinity`, which CPython accepts by default, are
decoded to their own constructor.  Surrogate-pair recombination in `\u`
escapes is not modelled (a lone escape stays one character), which does
not affect which inputs are accepted. -/

/-- Whitespace accepted between JSON tokens. -/
def isJsonWs (c : Char) : Bool :=
  c = ' ' || c = '\t' || c = '\n' || c = '\r'

/-- Drop leading JSON whitespace. -/
def skipWs : List Char → List Char
  | [] => []
  | c :: rest => if isJsonWs c then skipWs rest else c :: rest

/-- Value of a hexadecimal digit. -/
def hexVal (c : Char) : Option Nat :=
  if '0' ≤ c ∧ c ≤ '9' then some (c.toNat - '0'.toNat)
  else if 'a' ≤ c ∧ c ≤ 'f' then some (c.toNat - 'a'.toNat + 10)
  else if 'A' ≤ c ∧ c ≤ 'F' then some (c.toNat - 'A'.toNat + 10)
  else none

/-- Single-character JSON string escapes. -/
def escChar : Char → Option Char
  | '"' => some '"'
  | '\\' => some '\\'
  | '/' => some '/'
  | 'b' => some (Char.ofNat 8)
  | 'f' => some (Char.ofNat 12)
  | 'n' => some '\n'
  | 'r' => some '\r'
  | 't' => some '\t'
  | _ => none

/-- Body of a JSON string literal after the opening quote; yields the
decoded characters and the input following the closing quote. -/
def parseStrBody : List Char → Option (List Char × List Char)
  | [] => none
  | '"' :: rest => some ([], rest)
  | '\\' :: 'u' :: h1 :: h2 :: h3 :: h4 :: rest =>
    match hexVal h1, hexVal h2, hexVal h3, hexVal h4 with
    | some a, some b, some c, some d =>
      (parseStrBody rest).map
        (fun p => (Char.ofNat (((a * 16 + b) * 16 + c) * 16 + d) :: p.1, p.2))
    | _, _, _, _ => none
  | '\\' :: e :: rest =>
    match escChar e with
    | some c => (parseStrBody rest).map (fun p => (c :: p.1, p.2))
    | none => none
  | ['\\'] => none
  | c :: rest =>
    if c.toNat < 32 then none
    else (parseStrBody rest).map (fun p => (c :: p.1, p.2))

/-- Numeric value of a decimal digit. -/
def digitVal (c : Char) : Nat := c.toNat - '0'.toNat

/-- Decimal digits folded into a natural number. -/
def digitsToNat (ds : List Char) : Nat :=
  ds.foldl (fun acc c => acc * 10 + digitVal c) 0

/-- Fraction part of a JSON number: a dot followed by at least one
digit, or nothing. -/
def parseFrac (cs : List Char) : Option (ℚ × List Char) :=
  match cs with
  | '.' :: fcs =>
    let ds := fcs.takeWhile Char.isDigit
    let rest := fcs.dropWhile Char.isDigit
    if ds.isEmpty then none
    else some ((digitsToNat ds : ℚ) / (10 : ℚ) ^ ds.length, rest)
  | _ => some (0, cs)

/-- Digits of an exponent, with the sign already consumed. -/
def parseExpDigits (sign : ℤ) (cs : List Char) : Option (ℤ × List Char) :=
  let ds := cs.takeWhile Char.isDigit
  let rest := cs.dropWhile Char.isDigit
  if ds.isEmpty then none else some (sign * (digitsToNat ds : ℤ), rest)

/-- Exponent part of a JSON number, or exponent zero when absent. -/
def parseExp : List Char → Option (ℤ × List Char)
  | 'e' :: '+' :: cs => parseExpDigits 1 cs
  | 'e' :: '-' :: cs => parseExpDigits (-1) cs
  | 'e' :: cs => parseExpDigits 1 cs
  | 'E' :: '+' :: cs => parseExpDigits 1 cs
  | 'E' :: '-' :: cs => parseExpDigits (-1) cs
  | 'E' :: cs => parseExpDigits 1 cs
  | cs => some (0, cs)

/-- JSON number with the optional leading minus already consumed: an
integer part without leading zeros, optional fraction, optional
exponent. -/
def parseNumAfterSign (neg : Bool) (cs : List Char) : Option (ℚ × List Char) :=
  let ds := cs.takeWhile Char.isDigit
  let rest1 := cs.dropWhile Char.isDigit
  match ds with
  | [] => none
  | d0 :: drest =>
    if d0 = '0' && !drest.isEmpty then none
    else do
      let (frac, rest2) ← parseFrac rest1
      let (e, rest3) ← parseExp rest2
      let mag : ℚ := ((digitsToNat ds : ℚ) + frac) * (10 : ℚ) ^ e
      some (if neg then -mag else mag, rest3)

/-- Match an expected keyword tail character by character. -/
def stripKeyword : List Char → List Char → Option (List Char)
  | [], cs => some cs
  | k :: ks, c :: cs => if c = k then stripKeyword ks cs else none
  | _ :: _, [] => none

mutual

/-- A JSON value; the fuel bounds nesting depth and every level consumes
at least one character, so `length + 1` fuel always suffices. -/
def parseValue : Nat → List Char → Option (Json × List Char)
  | 0, _ => none
  | fuel + 1, cs =>
    match skipWs cs with
    | [] => none
    | '{' :: rest =>
      match skipWs rest with
      | '}' :: r => some (Json.obj [], r)
      | _ => (parseMembers fuel rest).map (fun p => (Json.obj p.1, p.2))
    | '[' :: rest =>
      match skipWs rest with
      | ']' :: r => some (Json.arr [], r)
      | _ => (parseElems fuel rest).map (fun p => (Json.arr p.1, p.2))
    | '"' :: rest =>
      (parseStrBody rest).map (fun p => (Json.str (String.mk p.1), p.2))
    | '-' :: 'I' :: rest =>
      (stripKeyword ['n', 'f', 'i', 'n', 'i', 't', 'y'] rest).map
        (fun r => (Json.nonfinite NonFinite.neginf, r))
    | '-' :: rest => (parseNumAfterSign true rest).map (fun p => (Json.num p.1, p.2))
    | 't' :: rest => (stripKeyword ['r', 'u', 'e'] rest).map (fun r => (Json.bool true, r))
    | 'f' :: rest => (stripKeyword ['a', 'l', 's', 'e'] rest).map (fun r => (Json.bool false, r))
    | 'n' :: rest => (stripKeyword ['u', 'l', 'l'] rest).map (fun r => (Json.null, r))
    | 'N' :: rest =>
      (stripKeyword ['a', 'N'] rest).map (fun r => (Json.nonfinite NonFinite.nan, r))
    | 'I' :: rest =>
      (stripKeyword ['n', 'f', 'i', 'n', 'i', 't', 'y'] rest).map
        (fun r => (Json.nonfinite NonFinite.inf, r))
    | c :: rest =>
      if c.isDigit then (parseNumAfterSign false (c :: rest)).map (fun p => (Json.num p.1, p.2))
      else none

/-- One or more `"key": value` members followed by the closing brace. -/
def parseMembers : Nat → List Char → Option (List (String × Json) × List Char)
  | 0, _ => none
  | fuel + 1, cs =>
    match skipWs cs with
    | '"' :: rest =>
      match parseStrBody rest with
      | none => none
      | some (key, r1) =>
        match skipWs r1 with
        | ':' :: r2 =>
          match parseValue fuel r2 with
          | none => none
          | some (v, r3) =>
            match skipWs r3 with
            | ',' :: r4 =>
              (parseMembers fuel r4).map (fun p => ((String.mk key, v) :: p.1, p.2))
            | '}' :: r4 => some ([(String.mk key, v)], r4)
            | _ => none
        | _ => none
    | _ => none

/-- One or more array elements followed by the closing bracket. -/
def parseElems : Nat → List Char → Option (List Json × List Char)
  | 0, _ => none
  | fuel + 1, cs =>
    match parseValue fuel cs with
    | none => none
    | some (v, r1) =>
      match skipWs r1 with
      | ',' :: r2 => (parseElems fuel r2).map (fun p => (v :: p.1, p.2))
      | ']' :: r2 => some ([v], r2)
      | _ => none

end

/-- Model of Python `json.loads`: parse one JSON document and require
the remaining input to be whitespace only. -/
def jsonParse (s : String) : Option Json :=
  match parseValue (s.length + 1) s.data with
  | some (j, rest) => if (skipWs rest).isEmpty then some j else none
  | none => none

/-- Translation of `load_json_metadata` (src/main.py:80-95): the sidecar
bytes are passed to `json.load` inside a try/except; any parse failure
returns `None`.  Otherwise the parsed value is returned as is — there is
no check that the top-level value is an object — except that `json.load`
of the document `null` yields the Python value `None` itself, which the
caller cannot distinguish from a failure (`if metadata is None`,
src/main.py:325): both map to `none` here. -/
def load_json_metadata (contents : String) : Option Json :=
  match jsonParse contents with
  | some Json.null => none
  | r => r

/-! ### Field decoding inside update_image_exif (src/main.py:148-167)

The values below are exactly the values `update_image_exif` writes into
the EXIF dictionary; `none` means the corresponding tag write is skipped
(the Python guard `if value is not None`) or, for the people join, that
the join raises and the file becomes a per-file error. -/

/-- Shared shape of the lowercase/capitalized key fallback in
update_image_exif: enter the branch when either key is present, then
compute `metadata.get(lower) or metadata.get(upper)` with Python `or`
(falsy first values fall through to the second key). -/
def decodedField (m : Json) (lower upper : String) : Option Json :=
  if m.hasKey lower || m.hasKey upper then pyOr (pyGet m lower) (pyGet m upper)
  else none

/-- Title value written to XPTitle (src/main.py:148-152). -/
def decoded_title (m : Json) : Option Json :=
  decodedField m "title" "Title"

/-- Description value written to ImageDescription (src/main.py:154-158). -/
def decoded_description (m : Json) : Option Json :=
  decodedField m "description" "Description"

/-- Python `", ".join(xs)`: succeeds only when every element is a string
(a `None` or non-string element raises TypeError, which the enclosing
try/except of update_image_exif turns into a per-file error). -/
def joinStrs : List (Option Json) → Option (List String)
  | [] => some []
  | some (Json.str s) :: rest => (joinStrs rest).map (fun l => s :: l)
  | _ :: _ => none

/-- People join written to XPComment (src/main.py:160-167): keep the
entries whose dict has a `name` key — whatever the value — retrieve the
values with `.get`, and join with `", "`. -/
def people_str (people : List Json) : Option String :=
  (joinStrs ((people.filter (fun p => p.hasKey "name")).map (fun p => pyGet p "name"))).map
    (fun l => String.intercalate ", " l)

/-- The people join as claim C4 words it: only entries with a present and
non-empty name contribute.  Kept for comparison with `people_str`. -/
def people_str_claimed (people : List Json) : Option String :=
  (joinStrs ((people.filter (fun p =>
      match pyGet p "name" with
      | some (Json.str s) => !(s == "")
      | _ => false)).map (fun p => pyGet p "name"))).map
    (fun l => String.intercalate ", " l)

/-! ### Coordinate conversion (src/main.py:196-221) -/

/-- Python `int()` on a rational: truncation toward zero. -/
def pyInt (q : ℚ) : ℤ :=
  if 0 ≤ q then ⌊q⌋ else -⌊-q⌋

/-- Translation of `to_degrees` inside create_gps_exif
(src/main.py:207-213), with Python floats modelled as exact rationals:
degrees and minutes by truncation, seconds scaled by 100 and truncated,
over denominators 1, 1 and 100. -/
def to_degrees (value : ℚ) : (ℤ × ℤ) × (ℤ × ℤ) × (ℤ × ℤ) :=
  let v := |value|
  let degrees := pyInt v
  let minutes := pyInt ((v - degrees) * 60)
  let seconds := (v - degrees - (minutes : ℚ) / 60) * 3600
  ((degrees, 1), (minutes, 1), (pyInt (seconds * 100), 100))

/-- The conversion as claim C3 words it: the seconds numerator is
`round(seconds * 100)` instead of the code's truncation.  Kept for
comparison with `to_degrees`. -/
def to_degrees_claimed (value : ℚ) : (ℤ × ℤ) × (ℤ × ℤ) × (ℤ × ℤ) :=
  let v := |value|
  let degrees := ⌊v⌋
  let minutes := ⌊(v - degrees) * 60⌋
  let seconds := (v - degrees - (minutes : ℚ) / 60) * 3600
  ((degrees, 1), (minutes, 1), (round (seconds * 100), 100))

/-- The GPS IFD block produced by create_gps_exif. -/
structure GpsIfd where
  latitudeRef : Char
  latitude : (ℤ × ℤ) × (ℤ × ℤ) × (ℤ × ℤ)
  longitudeRef : Char
  longitude : (ℤ × ℤ) × (ℤ × ℤ) × (ℤ × ℤ)
deriving DecidableEq

/-- Translation of create_gps_exif (src/main.py:196-221). -/
def create_gps_exif (lat lon : ℚ) : GpsIfd :=
  { latitudeRef := if 0 ≤ lat then 'N' else 'S'
    latitude := to_degrees lat
    longitudeRef := if 0 ≤ lon then 'E' else 'W'
    longitude := to_degrees lon }

/-! ### Paths, discovery and sidecar resolution -/

/-- A filesystem path as pathlib splits it: directory components, stem,
and the final suffix (empty, or starting with a dot).  For media files
under the source root the components are taken relative to that root.
The file name is `stem ++ suffix`. -/
structure FsPath where
  dir : List String
  stem : String
  suffix : String
deriving DecidableEq

namespace FsPath

/-- The file name, stem plus suffix. -/
def name (p : FsPath) : String := p.stem ++ p.suffix

/-- pathlib `Path.with_suffix`: replace the final suffix. -/
def with_suffix (p : FsPath) (s : String) : FsPath :=
  { p with suffix := s }

end FsPath

/-- Python `str.lower()` on an extension, modelled characterwise (the
extensions involved are ASCII). -/
def strLower (s : String) : String :=
  String.mk (s.data.map Char.toLower)

/-- Supported image extensions (src/main.py:26). -/
def IMAGE_EXTENSIONS : List String := [".jpg", ".jpeg", ".png", ".tiff", ".tif"]

/-- Supported video extensions (src/main.py:27). -/
def VIDEO_EXTENSIONS : List String := [".mp4", ".mov", ".avi", ".mkv", ".m4v"]

/-- Union of the two sets (src/main.py:28). -/
def ALL_MEDIA_EXTENSIONS : List String := IMAGE_EXTENSIONS ++ VIDEO_EXTENSIONS

/-- Translation of find_media_files (src/main.py:31-47): `os.walk` is
abstracted to the list of all files under the folder; a file is kept
when its lowercased suffix is a supported media extension. -/
def find_media_files (allFiles : List FsPath) : List FsPath :=
  allFiles.filter (fun f => ALL_MEDIA_EXTENSIONS.contains (strLower f.suffix))

/-- Translation of find_json_file (src/main.py:50-77) over an explicit
filesystem existence predicate: try the four sidecar naming conventions
in order and return the first that exists. -/
def find_json_file (exists_on_disk : FsPath → Bool) (media_file : FsPath) : Option FsPath :=
  let c1 := media_file.with_suffix (media_file.suffix ++ ".suppl.json")
  if exists_on_disk c1 then some c1 else
  let c2 := media_file.with_suffix (media_file.suffix ++ ".supplemental-metadata.json")
  if exists_on_disk c2 then some c2 else
  let c3 := media_file.with_suffix (media_file.suffix ++ ".json")
  if exists_on_disk c3 then some c3 else
  let c4 := media_file.with_suffix ".json"
  if exists_on_disk c4 then some c4 else
  none

/-- The four sidecar candidate paths in the priority order of
find_json_file. -/
def sidecarCandidates (media_file : FsPath) : List FsPath :=
  [media_file.with_suffix (media_file.suffix ++ ".suppl.json"),
   media_file.with_suffix (media_file.suffix ++ ".supplemental-metadata.json"),
   media_file.with_suffix (media_file.suffix ++ ".json"),
   media_file.with_suffix ".json"]

/-! ### Writers, per-file processing, batch loop

The writers touch the filesystem; each returns its success flag together
with the list of effects it performed, in program order.  The outcomes
of the external capabilities (piexif/PIL encode and save, mkdir,
shutil.copy2, the exiftool probe and exit status) are inputs of the
model. -/

/-- A filesystem effect performed by the writers. -/
inductive FsEffect where
  | mkdirParents (dir : List String) : FsEffect
  | wroteImage (dst : FsPath) : FsEffect
  | copiedVideo (src dst : FsPath) : FsEffect
deriving DecidableEq

/-- Capability outcomes for one image write: whether everything before
the first filesystem effect succeeds (EXIF-dict construction and
piexif.dump), whether creating the destination parents succeeds, and
whether the PIL re-encode and save succeeds (modelled as atomic). -/
structure ImageWriteEnv where
  encodeOk : Bool
  mkdirOk : Bool
  saveOk : Bool
deriving DecidableEq

/-- Capability outcomes for one video write: the exiftool availability
probe, the mkdir, the verbatim copy, and the exiftool exit status. -/
structure VideoWriteEnv where
  exiftoolInstalled : Bool
  mkdirOk : Bool
  copyOk : Bool
  toolExitZero : Bool
deriving DecidableEq

/-- Capability outcomes for one file, whichever writer runs. -/
structure WriteEnv where
  image : ImageWriteEnv
  video : VideoWriteEnv
deriving DecidableEq

/-- Translation of check_exiftool_installed (src/main.py:224-235): the
probe outcome is an environment fact passed in explicitly. -/
def check_exiftool_installed (env : VideoWriteEnv) : Bool :=
  env.exiftoolInstalled

/-- Translation of update_image_exif (src/main.py:116-193) at the
effect level.  The whole body is one try/except returning False on any
exception.  Program order: EXIF construction and piexif.dump, then
mkdir of the destination parents, then the save. -/
def update_image_exif (env : ImageWriteEnv) (output_file : FsPath) : Bool × List FsEffect :=
  if !env.encodeOk then (false, [])
  else if !env.mkdirOk then (false, [])
  else if !env.saveOk then (false, [FsEffect.mkdirParents output_file.dir])
  else (true, [FsEffect.mkdirParents output_file.dir, FsEffect.wroteImage output_file])

/-- Translation of update_video_exif (src/main.py:238-300).  When the
exiftool probe fails the function returns False before touching the
filesystem.  Otherwise it creates the destination parents, copies the
video verbatim to the destination, and runs exiftool in place on the
destination; a non-zero exit returns False, with the copy left in
place. -/
def update_video_exif (env : VideoWriteEnv) (video_file output_file : FsPath) :
    Bool × List FsEffect :=
  if !check_exiftool_installed env then (false, [])
  else if !env.mkdirOk then (false, [])
  else if !env.copyOk then (false, [FsEffect.mkdirParents output_file.dir])
  else if !env.toolExitZero then
    (false, [FsEffect.mkdirParents output_file.dir,
             FsEffect.copiedVideo video_file output_file])
  else
    (true, [FsEffect.mkdirParents output_file.dir,
            FsEffect.copiedVideo video_file output_file])

/-- Mirrored destination of a media file (src/main.py:328-330): its
source-relative path re-rooted under the output folder. -/
def mirrored_output (output_root : List String) (media_file : FsPath) : FsPath :=
  { media_file with dir := output_root ++ media_file.dir }

/-- Translation of process_media_file (src/main.py:303-351).
`exists_on_disk` and `content` describe the source filesystem, which no
step of the run mutates; `env` fixes this file's capability outcomes.
Returns the flag the source returns (True also for skips and dry runs)
and the effects performed. -/
def process_media_file (exists_on_disk : FsPath → Bool) (content : FsPath → String)
    (env : WriteEnv) (output_root : List String) (media_file : FsPath)
    (dry_run : Bool) : Bool × List FsEffect :=
  match find_json_file exists_on_disk media_file with
  | none => (true, [])
  | some json_file =>
    match load_json_metadata (content json_file) with
    | none => (false, [])
    | some _metadata =>
      let output_file := mirrored_output output_root media_file
      if dry_run then (true, [])
      else if IMAGE_EXTENSIONS.contains (strLower media_file.suffix) then
        update_image_exif env.image output_file
      else if VIDEO_EXTENSIONS.contains (strLower media_file.suffix) then
        update_video_exif env.video media_file output_file
      else (false, [])

/-- The per-file counters of the batch summary (src/main.py:406-408). -/
structure Counts where
  updated : Nat
  skipped : Nat
  errors : Nat
deriving DecidableEq

/-- Componentwise addition of count vectors. -/
def Counts.add (a b : Counts) : Counts :=
  ⟨a.updated + b.updated, a.skipped + b.skipped, a.errors + b.errors⟩

/-- One iteration of the loop in main (src/main.py:410-419): a file
whose sidecar resolution fails increments skipped; otherwise
process_media_file runs (it resolves the sidecar a second time, as the
source does) and its flag selects updated or errors. -/
def file_step (exists_on_disk : FsPath → Bool) (content : FsPath → String)
    (env : FsPath → WriteEnv) (output_root : List String) (dry_run : Bool)
    (media_file : FsPath) : Counts × List FsEffect :=
  match find_json_file exists_on_disk media_file with
  | none => (⟨0, 1, 0⟩, [])
  | some _ =>
    let r := process_media_file exists_on_disk content (env media_file) output_root
      media_file dry_run
    if r.1 then (⟨1, 0, 0⟩, r.2) else (⟨0, 0, 1⟩, r.2)

/-- The batch loop of main (src/main.py:410-419) over the discovered
media files, folding counts and concatenating effects in order. -/
def run_batch (exists_on_disk : FsPath → Bool) (content : FsPath → String)
    (env : FsPath → WriteEnv) (output_root : List String) (dry_run : Bool) :
    List FsPath → Counts × List FsEffect
  | [] => (⟨0, 0, 0⟩, [])
  | f :: rest =>
    let s := file_step exists_on_disk content env output_root dry_run f
    let r := run_batch exists_on_disk content env output_root dry_run rest
    (s.1.add r.1, s.2 ++ r.2)

/-! ### Sample inputs for concrete instantiations -/

/-- A sample image file at the source root. -/
def photoJpg : FsPath := ⟨[], "photo", ".jpg"⟩

/-- A sample video file at the source root. -/
def clipMp4 : FsPath := ⟨[], "clip", ".mp4"⟩

/-- A filesystem on which exactly one path exists. -/
def onlyFile (sc : FsPath) : FsPath → Bool :=
  fun p => decide (p = sc)

/-- Capability environment where every external step succeeds. -/
def allOkEnv : WriteEnv := ⟨⟨true, true, true⟩, ⟨true, true, true, true⟩⟩

/-- Capability environment where exiftool runs but exits non-zero. -/
def toolFailEnv : WriteEnv := ⟨⟨true, true, true⟩, ⟨true, true, true, false⟩⟩

/-- Capability environment where the exiftool probe fails. -/
def noToolEnv : WriteEnv := ⟨⟨true, true, true⟩, ⟨false, true, true, true⟩⟩

/-- Sidecar text holding the empty JSON object. -/
def emptyObjText : String := "\x7b\x7d"

/-! ### Helper lemmas -/

theorem pyInt_of_nonneg {q : ℚ} (h : 0 ≤ q) : pyInt q = ⌊q⌋ :=
  if_pos h

theorem process_skip (exists_on_disk : FsPath → Bool) (content : FsPath → String)
    (env : WriteEnv) (root : List String) (media : FsPath) (dry : Bool)
    (h : find_json_file exists_on_disk media = none) :
    process_media_file exists_on_disk content env root media dry = (true, []) := by
  simp [process_media_file, h]

theorem process_decode_error (exists_on_disk : FsPath → Bool) (content : FsPath → String)
    (env : WriteEnv) (root : List String) (media jf : FsPath) (dry : Bool)
    (h1 : find_json_file exists_on_disk media = some jf)
    (h2 : load_json_metadata (content jf) = none) :
    process_media_file exists_on_disk content env root media dry = (false, []) := by
  simp [process_media_file, h1, h2]

theorem process_dry_no_effects (exists_on_disk : FsPath → Bool) (content : FsPath → String)
    (env : WriteEnv) (root : List String) (media : FsPath) :
    (process_media_file exists_on_disk content env root media true).2 = [] := by
  unfold process_media_file
  cases h1 : find_json_file exists_on_disk media with
  | none => rfl
  | some jf => cases h2 : load_json_metadata (content jf) <;> simp [h2]

theorem file_step_dry_no_effects (exists_on_disk : FsPath → Bool) (content : FsPath → String)
    (env : FsPath → WriteEnv) (root : List String) (media : FsPath) :
    (file_step exists_on_disk content env root true media).2 = [] := by
  unfold file_step
  cases h1 : find_json_file exists_on_disk media
  · rfl
  · have := process_dry_no_effects exists_on_disk content (env media) root media
    cases hp : (process_media_file exists_on_disk content (env media) root media true).1 <;>
      simp [hp, this]

theorem file_step_counts_one (exists_on_disk : FsPath → Bool) (content : FsPath → String)
    (env : FsPath → WriteEnv) (root : List String) (dry : Bool) (media : FsPath) :
    (file_step exists_on_disk content env root dry media).1.updated
      + (file_step exists_on_disk content env root dry media).1.skipped
      + (file_step exists_on_disk content env root dry media).1.errors = 1 := by
  unfold file_step
  cases h1 : find_json_file exists_on_disk media
  · rfl
  · cases hp : (process_media_file exists_on_disk content (env media) root media dry).1 <;>
      simp [hp]

/-! ### Claim C5 — sidecar resolution order -/

/-- Claim C5: for every media file path and filesystem state,
find_json_file returns the first existing path among the four sidecar
candidates, in order `<name>.suppl.json`,
`<name>.supplemental-metadata.json`, `<name>.json`,
`<stem>.json`; it returns none exactly when none of the four exists, and
a file resolved to none is counted as a skip, not an error. -/
theorem C5_resolver_order : ∀ (exists_on_disk : FsPath → Bool) (media : FsPath),
    find_json_file exists_on_disk media = (sidecarCandidates media).find? exists_on_disk
  ∧ ((find_json_file exists_on_disk media = none)
      ↔ ∀ c ∈ sidecarCandidates media, exists_on_disk c = false)
  ∧ (sidecarCandidates media).map FsPath.name =
      [media.name ++ ".suppl.json",
       media.name ++ ".supplemental-metadata.json",
       media.name ++ ".json",
       media.stem ++ ".json"]
  ∧ (∀ (content : FsPath → String) (env : FsPath → WriteEnv) (root : List String)
       (dry : Bool), find_json_file exists_on_disk media = none →
       file_step exists_on_disk content env root dry media = (⟨0, 1, 0⟩, [])) := by
  intro exists_on_disk media
  refine ⟨?_, ?_, ?_, ?_⟩
  · cases h1 : exists_on_disk (media.with_suffix (media.suffix ++ ".suppl.json")) <;>
    cases h2 : exists_on_disk (media.with_suffix (media.suffix ++ ".supplemental-metadata.json")) <;>
    cases h3 : exists_on_disk (media.with_suffix (media.suffix ++ ".json")) <;>
    cases h4 : exists_on_disk (media.with_suffix ".json") <;>
      simp [find_json_file, sidecarCandidates, List.find?, h1, h2, h3, h4]
  · cases h1 : exists_on_disk (media.with_suffix (media.suffix ++ ".suppl.json")) <;>
    cases h2 : exists_on_disk (media.with_suffix (media.suffix ++ ".supplemental-metadata.json")) <;>
    cases h3 : exists_on_disk (media.with_suffix (media.suffix ++ ".json")) <;>
    cases h4 : exists_on_disk (media.with_suffix ".json") <;>
      simp [find_json_file, sidecarCandidates, h1, h2, h3, h4]
  · simp [sidecarCandidates, FsPath.name, FsPath.with_suffix, String.append_assoc]
  · intro content env root dry h
    simp [file_step, h]

/-- Witness for C5 at a concrete filesystem with no sidecar. -/
theorem C5_resolver_order_witness :
    find_json_file (fun _ => false) photoJpg = none
  ∧ file_step (fun _ => false) (fun _ => emptyObjText) (fun _ => allOkEnv) [] false photoJpg
      = (⟨0, 1, 0⟩, []) :=
  ⟨rfl, (C5_resolver_order (fun _ => false) photoJpg).2.2.2 (fun _ => emptyObjText)
    (fun _ => allOkEnv) [] false rfl⟩

/-! ### Claim C3 — coordinate conversion -/

theorem to_degrees_floor (v : ℚ) :
    to_degrees v =
      ((⌊|v|⌋, 1),
       (⌊(|v| - ⌊|v|⌋) * 60⌋, 1),
       (⌊(|v| - ⌊|v|⌋ - (⌊(|v| - ⌊|v|⌋) * 60⌋ : ℚ) / 60) * 3600 * 100⌋, 100)) := by
  have h1 : (0 : ℚ) ≤ |v| := abs_nonneg v
  have h2 : ((⌊|v|⌋ : ℚ)) ≤ |v| := Int.floor_le _
  have h3 : (0 : ℚ) ≤ (|v| - ⌊|v|⌋) * 60 :=
    mul_nonneg (sub_nonneg.mpr h2) (by norm_num)
  have h4 : ((⌊(|v| - ⌊|v|⌋) * 60⌋ : ℚ)) ≤ (|v| - ⌊|v|⌋) * 60 := Int.floor_le _
  have h5 : (0 : ℚ) ≤ |v| - ⌊|v|⌋ - (⌊(|v| - ⌊|v|⌋) * 60⌋ : ℚ) / 60 := by
    have hd : ((⌊(|v| - ⌊|v|⌋) * 60⌋ : ℚ)) / 60 ≤ |v| - ⌊|v|⌋ :=
      (div_le_iff₀ (by norm_num : (0 : ℚ) < 60)).mpr h4
    linarith
  have h6 : (0 : ℚ) ≤ (|v| - ⌊|v|⌋ - (⌊(|v| - ⌊|v|⌋) * 60⌋ : ℚ) / 60) * 3600 * 100 :=
    mul_nonneg (mul_nonneg h5 (by norm_num)) (by norm_num)
  show ((pyInt |v|, (1 : ℤ)),
        (pyInt ((|v| - pyInt |v|) * 60), (1 : ℤ)),
        (pyInt ((|v| - pyInt |v| - (pyInt ((|v| - pyInt |v|) * 60) : ℚ) / 60) * 3600 * 100),
         (100 : ℤ))) = _
  rw [pyInt_of_nonneg h1, pyInt_of_nonneg h3, pyInt_of_nonneg h6]

theorem to_degrees_eval (x : ℚ) (d m sn : ℤ) (hd : ⌊|x|⌋ = d)
    (hm : ⌊(|x| - d) * 60⌋ = m)
    (hs : ⌊(|x| - d - (m : ℚ) / 60) * 3600 * 100⌋ = sn) :
    to_degrees x = ((d, 1), (m, 1), (sn, 100)) := by
  rw [to_degrees_floor, hd, hm, hs]

theorem to_degrees_claimed_eval (x : ℚ) (d m sn : ℤ) (hd : ⌊|x|⌋ = d)
    (hm : ⌊(|x| - d) * 60⌋ = m)
    (hs : round ((|x| - d - (m : ℚ) / 60) * 3600 * 100) = sn) :
    to_degrees_claimed x = ((d, 1), (m, 1), (sn, 100)) := by
  simp only [to_degrees_claimed]
  rw [hd, hm, hs]

/-- Claim C3 counterexample: the code truncates `seconds * 100` with
Python `int()`, it does not round.  At `v = 1/400000` degrees (0.9
hundredths of a second) the code yields numerator 0 while the claim's
rounding yields 1. -/
theorem C3_truncation_cex :
    to_degrees (1 / 400000) = ((0, 1), (0, 1), (0, 100))
  ∧ to_degrees_claimed (1 / 400000) = ((0, 1), (0, 1), (1, 100))
  ∧ to_degrees (1 / 400000) ≠ to_degrees_claimed (1 / 400000) := by
  have ha : |(1 : ℚ) / 400000| = 1 / 400000 := abs_of_nonneg (by norm_num)
  have h1 : to_degrees (1 / 400000) = ((0, 1), (0, 1), (0, 100)) :=
    to_degrees_eval _ 0 0 0 (by rw [ha]; norm_num) (by rw [ha]; norm_num)
      (by rw [ha]; norm_num)
  have h2 : to_degrees_claimed (1 / 400000) = ((0, 1), (0, 1), (1, 100)) :=
    to_degrees_claimed_eval _ 0 0 1 (by rw [ha]; norm_num) (by rw [ha]; norm_num)
      (by rw [ha]; norm_num [round_eq])
  refine ⟨h1, h2, by rw [h1, h2]; simp⟩

/-- Claim C3 amended: for every rational v the conversion yields degrees
equal to the integer part of the absolute value, minutes the integer
part of the remaining fractional degrees times 60, and seconds a
rational with denominator 100 whose numerator is the TRUNCATION (integer
part, not rounding) of seconds times 100; the hemisphere references are
N/S by the sign of latitude and E/W by the sign of longitude, and the
spec's examples hold: (48.8584, 2.2945) yields degrees 48, minutes 51,
reference N, and latitude -33.8 yields S. -/
theorem C3_conversion_amended : ∀ v : ℚ,
    to_degrees v =
      ((⌊|v|⌋, 1),
       (⌊(|v| - ⌊|v|⌋) * 60⌋, 1),
       (⌊(|v| - ⌊|v|⌋ - (⌊(|v| - ⌊|v|⌋) * 60⌋ : ℚ) / 60) * 3600 * 100⌋, 100))
  ∧ (∀ lat lon : ℚ,
       (create_gps_exif lat lon).latitudeRef = (if 0 ≤ lat then 'N' else 'S')
       ∧ (create_gps_exif lat lon).longitudeRef = (if 0 ≤ lon then 'E' else 'W')
       ∧ (create_gps_exif lat lon).latitude = to_degrees lat
       ∧ (create_gps_exif lat lon).longitude = to_degrees lon)
  ∧ (to_degrees (488584 / 10000)).1.1 = 48
  ∧ (to_degrees (488584 / 10000)).2.1.1 = 51
  ∧ (create_gps_exif (488584 / 10000) (22945 / 10000)).latitudeRef = 'N'
  ∧ (create_gps_exif (-338 / 10) 0).latitudeRef = 'S' := by
  intro v
  have ha : |(488584 : ℚ) / 10000| = 488584 / 10000 := abs_of_nonneg (by norm_num)
  have hParis : to_degrees (488584 / 10000) = ((48, 1), (51, 1), (3024, 100)) :=
    to_degrees_eval _ 48 51 3024 (by rw [ha]; norm_num) (by rw [ha]; norm_num)
      (by rw [ha]; norm_num)
  refine ⟨to_degrees_floor v, fun lat lon => ⟨rfl, rfl, rfl, rfl⟩, ?_, ?_, ?_, ?_⟩
  · rw [hParis]
  · rw [hParis]
  · show (if (0 : ℚ) ≤ 488584 / 10000 then 'N' else 'S') = 'N'
    rw [if_pos (by norm_num)]
  · show (if (0 : ℚ) ≤ -338 / 10 then 'N' else 'S') = 'S'
    rw [if_neg (by norm_num)]

/-! ### Claim C4 — people join -/

theorem people_names_filterMap (people : List Json) :
    (people.filter (fun p => p.hasKey "name")).map (fun p => pyGet p "name")
      = people.filterMap (fun p =>
          if p.hasKey "name" then some (pyGet p "name") else none) := by
  induction people with
  | nil => rfl
  | cons p ps ih => cases h : p.hasKey "name" <;> simp [h, ih]

/-- Claim C4 counterexample: an entry whose `name` key holds the empty
string is NOT excluded — the code filters only on key presence — so
`[{"name": ""}, {"name": "Bo"}]` embeds `", Bo"`, while the claim's
reading (exclude empty names) yields `"Bo"`. -/
theorem C4_empty_name_cex :
    people_str [Json.obj [("name", Json.str "")], Json.obj [("name", Json.str "Bo")]]
      = some ", Bo"
  ∧ people_str_claimed [Json.obj [("name", Json.str "")], Json.obj [("name", Json.str "Bo")]]
      = some "Bo"
  ∧ (some (", Bo" : String)) ≠ (some ("Bo" : String)) := by
  refine ⟨rfl, rfl, by decide⟩

/-- Claim C4 amended: the people value embedded in the image is the
comma-and-space join of the `name` values of exactly those entries whose
`name` key is present — empty values included — in original list order
(the join succeeds only when all such values are strings); in particular
`[{"name":"Ann"},{"name":"Bo"}]` yields `"Ann, Bo"`. -/
theorem C4_people_join_amended : ∀ people : List Json,
    people_str people =
      (joinStrs (people.filterMap (fun p =>
        if p.hasKey "name" then some (pyGet p "name") else none))).map
        (fun l => String.intercalate ", " l)
  ∧ people_str [Json.obj [("name", Json.str "Ann")], Json.obj [("name", Json.str "Bo")]]
      = some "Ann, Bo" := by
  intro people
  refine ⟨?_, rfl⟩
  unfold people_str
  rw [people_names_filterMap]

/-! ### Claim C6 — title and description key fallback -/

/-- Claim C6 counterexample: with `{"title": "", "Title": "B"}` the
decoded title is `"B"`, not the value `""` of the first-present `title`
key — Python `or` falls through on falsy values, so the rule is not
independent of the values.  For the same reason `{"title": ""}` (no
write) and `{"Title": ""}` (writes `""`) do not decode identically. -/
theorem C6_first_present_cex :
    decoded_title (Json.obj [("title", Json.str ""), ("Title", Json.str "B")])
      = some (Json.str "B")
  ∧ (Json.obj [("title", Json.str ""), ("Title", Json.str "B")]).lookup "title"
      = some (Json.str "")
  ∧ Json.str "B" ≠ Json.str ""
  ∧ decoded_title (Json.obj [("title", Json.str "")]) = none
  ∧ decoded_title (Json.obj [("Title", Json.str "")]) = some (Json.str "") := by
  refine ⟨rfl, rfl, ?_, rfl, rfl⟩
  intro h
  injection h with h2
  exact absurd h2 (by decide)

/-- Claim C6 amended: for a sidecar with both `title` and `Title`, the
decoded title is the value of `title` when that value is truthy
(non-null, non-empty), and the value of `Title` otherwise; the same rule
governs `description`/`Description`; and a sidecar with only `Title`
decodes identically to one with only `title` when the value is truthy. -/
theorem C6_title_fallback_amended :
    (∀ m : Json, m.hasKey "title" = true → m.hasKey "Title" = true →
      decoded_title m
        = (if truthy (pyGet m "title") then pyGet m "title" else pyGet m "Title"))
  ∧ (∀ m : Json, m.hasKey "description" = true → m.hasKey "Description" = true →
      decoded_description m
        = (if truthy (pyGet m "description") then pyGet m "description"
           else pyGet m "Description"))
  ∧ (∀ v : Json, truthy (some v) = true →
      decoded_title (Json.obj [("title", v)]) = some v
      ∧ decoded_title (Json.obj [("Title", v)]) = some v) := by
  refine ⟨?_, ?_, ?_⟩
  · intro m h1 h2
    simp [decoded_title, decodedField, h1, pyOr]
  · intro m h1 h2
    simp [decoded_description, decodedField, h1, pyOr]
  · intro v hv
    cases v <;>
      simp_all [decoded_title, decodedField, Json.hasKey, Json.lookup, List.lookup,
        pyGet, pyOr, truthy]

/-- Witness for C6 at concrete sidecars with both keys populated. -/
theorem C6_title_fallback_amended_witness :
    decoded_title (Json.obj [("title", Json.str "t"), ("Title", Json.str "T")])
      = some (Json.str "t")
  ∧ decoded_title (Json.obj [("title", Json.str "A")]) = some (Json.str "A")
  ∧ decoded_title (Json.obj [("Title", Json.str "A")]) = some (Json.str "A") := by
  have h1 := C6_title_fallback_amended.1
    (Json.obj [("title", Json.str "t"), ("Title", Json.str "T")]) rfl rfl
  have h3 := C6_title_fallback_amended.2.2 (Json.str "A") (by decide)
  exact ⟨by rw [h1]; rfl, h3.1, h3.2⟩

/-! ### Claim C2 — decode failures -/

/-- Claim C2 counterexample: the bytes `[1]` are valid JSON whose
top-level value is not an object, yet the decoder returns the parsed
array instead of the DecodeError the claim requires — the code performs
no top-level type check. -/
theorem C2_non_object_cex :
    (load_json_metadata "[1]").isSome = true
  ∧ ((load_json_metadata "[1]").getD Json.null).isObj = false
  ∧ load_json_metadata "\x7bbad" = none := by
  refine ⟨by decide, by decide, rfl⟩

/-- Claim C2 amended: the decoder returns the error-signalling None
exactly when the bytes are not valid JSON (in Python json's dialect,
which also accepts NaN and Infinity) or the document is the single JSON
literal `null` — `json.load` returns the Python value None for it,
which the caller cannot distinguish from a failure; every other valid
JSON document, including non-object top levels, is returned as parsed.
A None decode is counted as an error, not a skip. -/
theorem C2_decode_error_amended : ∀ s : String,
    ((load_json_metadata s = none)
      ↔ (jsonParse s = none ∨ jsonParse s = some Json.null))
  ∧ (∀ j : Json, jsonParse s = some j → j ≠ Json.null → load_json_metadata s = some j)
  ∧ load_json_metadata "null" = none
  ∧ (∀ (exists_on_disk : FsPath → Bool) (content : FsPath → String)
       (env : FsPath → WriteEnv) (root : List String) (dry : Bool) (media jf : FsPath),
       find_json_file exists_on_disk media = some jf →
       load_json_metadata (content jf) = none →
       file_step exists_on_disk content env root dry media = (⟨0, 0, 1⟩, [])) := by
  intro s
  refine ⟨?_, ?_, rfl, ?_⟩
  · cases h : jsonParse s with
    | none => simp [load_json_metadata, h]
    | some j => cases j <;> simp [load_json_metadata, h]
  · intro j hj hne
    cases j <;> simp_all [load_json_metadata]
  · intro exists_on_disk content env root dry media jf h1 h2
    simp [file_step, process_media_file, h1, h2]

/-- Witness for C2: a concrete filesystem where the sidecar of photo.jpg
exists and holds invalid JSON steps to the error counter, and a valid
non-null, non-object document is returned as parsed. -/
theorem C2_decode_error_amended_witness :
    file_step (onlyFile (photoJpg.with_suffix ".jpg.suppl.json")) (fun _ => "\x7bbad")
      (fun _ => allOkEnv) [] false photoJpg = (⟨0, 0, 1⟩, [])
  ∧ load_json_metadata "[]" = some (Json.arr []) := by
  refine ⟨(C2_decode_error_amended "\x7bbad").2.2.2
    (onlyFile (photoJpg.with_suffix ".jpg.suppl.json"))
    (fun _ => "\x7bbad") (fun _ => allOkEnv) [] false photoJpg
    (photoJpg.with_suffix ".jpg.suppl.json") (by decide) rfl, ?_⟩
  exact (C2_decode_error_amended "[]").2.1 (Json.arr []) rfl (fun h => Json.noConfusion h)

/-! ### Claim C1 — contents of the output tree -/

/-- Claim C1 counterexample: a video file whose exiftool invocation
exits non-zero ends in an Error outcome, yet its verbatim copy has been
made at the mirrored output path and is left there — the output tree is
not restricted to successfully updated files. -/
theorem C1_error_leaves_copy_cex :
    process_media_file (onlyFile (clipMp4.with_suffix ".mp4.suppl.json"))
      (fun _ => emptyObjText) toolFailEnv ["out"] clipMp4 false
      = (false, [FsEffect.mkdirParents ["out"],
                 FsEffect.copiedVideo clipMp4 ⟨["out"], "clip", ".mp4"⟩])
  ∧ FsEffect.copiedVideo clipMp4 ⟨["out"], "clip", ".mp4"⟩
      ∈ (process_media_file (onlyFile (clipMp4.with_suffix ".mp4.suppl.json"))
          (fun _ => emptyObjText) toolFailEnv ["out"] clipMp4 false).2 := by
  refine ⟨by decide, by decide⟩

/-- Claim C1 amended: a skipped file (no sidecar) produces no filesystem
effect at all, and a successfully updated image is written at its
mirrored output path; but the output tree does not contain only Updated
files — a video whose external-tool invocation fails (non-zero exit)
ends in an error outcome with its verbatim copy left at the mirrored
destination. -/
theorem C1_output_tree_amended :
    (∀ (exists_on_disk : FsPath → Bool) (content : FsPath → String) (env : WriteEnv)
       (root : List String) (media : FsPath) (dry : Bool),
       find_json_file exists_on_disk media = none →
       process_media_file exists_on_disk content env root media dry = (true, []))
  ∧ (∀ (exists_on_disk : FsPath → Bool) (content : FsPath → String) (env : WriteEnv)
       (root : List String) (media jf : FsPath) (m : Json),
       find_json_file exists_on_disk media = some jf →
       load_json_metadata (content jf) = some m →
       IMAGE_EXTENSIONS.contains (strLower media.suffix) = true →
       env.image = ⟨true, true, true⟩ →
       process_media_file exists_on_disk content env root media false
         = (true, [FsEffect.mkdirParents (root ++ media.dir),
                   FsEffect.wroteImage (mirrored_output root media)]))
  ∧ (∀ (exists_on_disk : FsPath → Bool) (content : FsPath → String) (env : WriteEnv)
       (root : List String) (media jf : FsPath) (m : Json),
       find_json_file exists_on_disk media = some jf →
       load_json_metadata (content jf) = some m →
       IMAGE_EXTENSIONS.contains (strLower media.suffix) = false →
       VIDEO_EXTENSIONS.contains (strLower media.suffix) = true →
       env.video = ⟨true, true, true, false⟩ →
       (process_media_file exists_on_disk content env root media false).1 = false
       ∧ FsEffect.copiedVideo media (mirrored_output root media)
           ∈ (process_media_file exists_on_disk content env root media false).2) := by
  refine ⟨process_skip, ?_, ?_⟩
  · intro ex content env root media jf m h1 h2 h3 h4
    have hi : strLower media.suffix ∈ IMAGE_EXTENSIONS := by simpa using h3
    simp [process_media_file, update_image_exif, mirrored_output, h1, h2, hi, h4]
  · intro ex content env root media jf m h1 h2 h3 h4 h5
    have hi : strLower media.suffix ∉ IMAGE_EXTENSIONS := by simpa using h3
    have hv : strLower media.suffix ∈ VIDEO_EXTENSIONS := by simpa using h4
    simp [process_media_file, update_video_exif, check_exiftool_installed,
      mirrored_output, h1, h2, hi, hv, h5]

/-- Witness for C1 at a concrete source tree holding one video file with
a sidecar, with the exiftool exit status non-zero. -/
theorem C1_output_tree_amended_witness :
    ((process_media_file (onlyFile (clipMp4.with_suffix ".mp4.suppl.json"))
        (fun _ => emptyObjText) toolFailEnv ["o"] clipMp4 false).1 = false)
  ∧ FsEffect.copiedVideo clipMp4 (mirrored_output ["o"] clipMp4)
      ∈ (process_media_file (onlyFile (clipMp4.with_suffix ".mp4.suppl.json"))
          (fun _ => emptyObjText) toolFailEnv ["o"] clipMp4 false).2
  ∧ process_media_file (fun _ => false) (fun _ => emptyObjText) allOkEnv ["o"]
      clipMp4 false = (true, []) := by
  have h := C1_output_tree_amended.2.2 (onlyFile (clipMp4.with_suffix ".mp4.suppl.json"))
    (fun _ => emptyObjText) toolFailEnv ["o"] clipMp4
    (clipMp4.with_suffix ".mp4.suppl.json") (Json.obj [])
    (by decide) rfl (by decide) (by decide) rfl
  exact ⟨h.1, h.2, C1_output_tree_amended.1 _ _ _ _ _ _ (by decide)⟩

/-! ### Claim C9 — missing external tool -/

/-- Claim C9: when the exiftool probe fails, the video writer returns a
failure before performing any filesystem effect — no directory is
created, no copy is made — and the batch loop counts the file as an
error. -/
theorem C9_no_tool_no_files :
    (∀ (env : VideoWriteEnv) (video_file output_file : FsPath),
       check_exiftool_installed env = false →
       update_video_exif env video_file output_file = (false, []))
  ∧ (∀ (exists_on_disk : FsPath → Bool) (content : FsPath → String)
       (env : FsPath → WriteEnv) (root : List String) (media jf : FsPath) (m : Json),
       find_json_file exists_on_disk media = some jf →
       load_json_metadata (content jf) = some m →
       IMAGE_EXTENSIONS.contains (strLower media.suffix) = false →
       VIDEO_EXTENSIONS.contains (strLower media.suffix) = true →
       check_exiftool_installed (env media).video = false →
       file_step exists_on_disk content env root false media = (⟨0, 0, 1⟩, [])) := by
  constructor
  · intro env vf of h
    simp [update_video_exif, h]
  · intro ex content env root media jf m h1 h2 h3 h4 h5
    have hi : strLower media.suffix ∉ IMAGE_EXTENSIONS := by simpa using h3
    have hv : strLower media.suffix ∈ VIDEO_EXTENSIONS := by simpa using h4
    simp [file_step, process_media_file, update_video_exif, h1, h2, hi, hv, h5]

/-- Witness for C9 at a concrete source tree holding one video file with
a sidecar, with exiftool unavailable. -/
theorem C9_no_tool_no_files_witness :
    file_step (onlyFile (clipMp4.with_suffix ".mp4.suppl.json")) (fun _ => emptyObjText)
      (fun _ => noToolEnv) ["out"] false clipMp4 = (⟨0, 0, 1⟩, []) :=
  C9_no_tool_no_files.2 (onlyFile (clipMp4.with_suffix ".mp4.suppl.json"))
    (fun _ => emptyObjText) (fun _ => noToolEnv) ["out"] clipMp4
    (clipMp4.with_suffix ".mp4.suppl.json") (Json.obj [])
    (by decide) rfl (by decide) (by decide) rfl

/-! ### Claim C10 — dispatch totality for discovered files -/

theorem media_ext_split (s : String)
    (h : ALL_MEDIA_EXTENSIONS.contains s = true) :
    (IMAGE_EXTENSIONS.contains s = true ∧ VIDEO_EXTENSIONS.contains s = false)
    ∨ (IMAGE_EXTENSIONS.contains s = false ∧ VIDEO_EXTENSIONS.contains s = true) := by
  simp [ALL_MEDIA_EXTENSIONS, IMAGE_EXTENSIONS, VIDEO_EXTENSIONS] at h ⊢
  rcases h with h | h | h | h | h | h | h | h | h | h <;> subst h <;> simp

/-- Claim C10: every file produced by media discovery has its lowercased
extension in exactly one of the image and video sets, so non-dry-run
processing with a decoded sidecar dispatches to exactly one of the two
writers and the unsupported-type fall-through is unreachable. -/
theorem C10_dispatch_total : ∀ (allFiles : List FsPath) (f : FsPath),
    f ∈ find_media_files allFiles →
    ((IMAGE_EXTENSIONS.contains (strLower f.suffix) = true
      ∧ VIDEO_EXTENSIONS.contains (strLower f.suffix) = false)
     ∨ (IMAGE_EXTENSIONS.contains (strLower f.suffix) = false
        ∧ VIDEO_EXTENSIONS.contains (strLower f.suffix) = true))
  ∧ (∀ (exists_on_disk : FsPath → Bool) (content : FsPath → String) (env : WriteEnv)
       (root : List String) (jf : FsPath) (m : Json),
      find_json_file exists_on_disk f = some jf →
      load_json_metadata (content jf) = some m →
      process_media_file exists_on_disk content env root f false
        = (if IMAGE_EXTENSIONS.contains (strLower f.suffix) then
             update_image_exif env.image (mirrored_output root f)
           else update_video_exif env.video f (mirrored_output root f))) := by
  intro allFiles f hf
  have hall : ALL_MEDIA_EXTENSIONS.contains (strLower f.suffix) = true :=
    (List.mem_filter.mp hf).2
  have hsplit := media_ext_split _ hall
  refine ⟨hsplit, ?_⟩
  intro ex content env root jf m h1 h2
  rcases hsplit with ⟨hi, hv⟩ | ⟨hi, hv⟩
  · have hi' : strLower f.suffix ∈ IMAGE_EXTENSIONS := by simpa using hi
    simp [process_media_file, h1, h2, hi']
  · have hi' : strLower f.suffix ∉ IMAGE_EXTENSIONS := by simpa using hi
    have hv' : strLower f.suffix ∈ VIDEO_EXTENSIONS := by simpa using hv
    simp [process_media_file, h1, h2, hi', hv']

/-- Witness for C10 at a source tree holding one jpg with a sidecar. -/
theorem C10_dispatch_total_witness :
    photoJpg ∈ find_media_files [photoJpg]
  ∧ process_media_file (onlyFile (photoJpg.with_suffix ".jpg.suppl.json"))
      (fun _ => emptyObjText) allOkEnv ["o"] photoJpg false
      = update_image_exif allOkEnv.image (mirrored_output ["o"] photoJpg) := by
  have hmem : photoJpg ∈ find_media_files [photoJpg] := by decide
  have h := (C10_dispatch_total [photoJpg] photoJpg hmem).2
    (onlyFile (photoJpg.with_suffix ".jpg.suppl.json")) (fun _ => emptyObjText)
    allOkEnv ["o"] (photoJpg.with_suffix ".jpg.suppl.json") (Json.obj [])
    (by decide) rfl
  exact ⟨hmem, by rw [h]; rfl⟩

/-! ### Claim C7 — batch accounting -/

/-- Claim C7: every file increments exactly one of the three counters,
so updated + skipped + errors equals the number of discovered files; a
per-file failure increments only the error count, and the loop always
continues to the next file (no per-file outcome aborts the fold). -/
theorem C7_counters_partition : ∀ (exists_on_disk : FsPath → Bool)
    (content : FsPath → String) (env : FsPath → WriteEnv) (root : List String)
    (dry : Bool) (files : List FsPath),
    ((run_batch exists_on_disk content env root dry files).1.updated
      + (run_batch exists_on_disk content env root dry files).1.skipped
      + (run_batch exists_on_disk content env root dry files).1.errors = files.length)
  ∧ (∀ f : FsPath, (file_step exists_on_disk content env root dry f).1.updated
      + (file_step exists_on_disk content env root dry f).1.skipped
      + (file_step exists_on_disk content env root dry f).1.errors = 1)
  ∧ (∀ (f : FsPath) (rest : List FsPath),
      run_batch exists_on_disk content env root dry (f :: rest)
        = ((file_step exists_on_disk content env root dry f).1.add
             (run_batch exists_on_disk content env root dry rest).1,
           (file_step exists_on_disk content env root dry f).2
             ++ (run_batch exists_on_disk content env root dry rest).2))
  ∧ (∀ f : FsPath, (find_json_file exists_on_disk f).isSome = true →
      (process_media_file exists_on_disk content (env f) root f dry).1 = false →
      file_step exists_on_disk content env root dry f
        = (⟨0, 0, 1⟩,
           (process_media_file exists_on_disk content (env f) root f dry).2)) := by
  intro ex content env root dry files
  refine ⟨?_, file_step_counts_one ex content env root dry, fun f rest => rfl, ?_⟩
  · induction files with
    | nil => rfl
    | cons f rest ih =>
      have hf := file_step_counts_one ex content env root dry f
      simp only [run_batch, Counts.add, List.length_cons]
      omega
  · intro f h1 h2
    obtain ⟨jf, hjf⟩ := Option.isSome_iff_exists.mp h1
    simp [file_step, hjf, h2]

/-- Witness for C7: a two-file batch sums to 2, and a concrete file
whose sidecar decodes to invalid JSON steps to the error counter only. -/
theorem C7_counters_partition_witness :
    ((run_batch (fun _ => false) (fun _ => emptyObjText) (fun _ => allOkEnv) [] false
        [photoJpg, clipMp4]).1.updated
      + (run_batch (fun _ => false) (fun _ => emptyObjText) (fun _ => allOkEnv) [] false
          [photoJpg, clipMp4]).1.skipped
      + (run_batch (fun _ => false) (fun _ => emptyObjText) (fun _ => allOkEnv) [] false
          [photoJpg, clipMp4]).1.errors = 2)
  ∧ file_step (onlyFile (photoJpg.with_suffix ".jpg.suppl.json")) (fun _ => "\x7bbad")
      (fun _ => allOkEnv) [] false photoJpg
      = (⟨0, 0, 1⟩,
         (process_media_file (onlyFile (photoJpg.with_suffix ".jpg.suppl.json"))
           (fun _ => "\x7bbad") allOkEnv [] photoJpg false).2) := by
  refine ⟨(C7_counters_partition (fun _ => false) (fun _ => emptyObjText)
    (fun _ => allOkEnv) [] false [photoJpg, clipMp4]).1, ?_⟩
  exact (C7_counters_partition (onlyFile (photoJpg.with_suffix ".jpg.suppl.json"))
    (fun _ => "\x7bbad") (fun _ => allOkEnv) [] false []).2.2.2 photoJpg
    (by decide) rfl

/-! ### Claim C8 — dry-run purity -/

/-- Claim C8: a dry run performs no filesystem effect anywhere in the
batch — no output directory, no file written — while each file's
resolution outcome (skip versus sidecar found) and decode outcome
(decode error versus success) coincide with those of a live run over the
same inputs. -/
theorem C8_dry_run_pure : ∀ (exists_on_disk : FsPath → Bool)
    (content : FsPath → String) (env : FsPath → WriteEnv) (root : List String)
    (files : List FsPath) (media : FsPath),
    (run_batch exists_on_disk content env root true files).2 = []
  ∧ (process_media_file exists_on_disk content (env media) root media true).2 = []
  ∧ (find_json_file exists_on_disk media = none →
      process_media_file exists_on_disk content (env media) root media true = (true, [])
      ∧ process_media_file exists_on_disk content (env media) root media false = (true, []))
  ∧ (∀ jf : FsPath, find_json_file exists_on_disk media = some jf →
      load_json_metadata (content jf) = none →
      process_media_file exists_on_disk content (env media) root media true = (false, [])
      ∧ process_media_file exists_on_disk content (env media) root media false
          = (false, [])) := by
  intro ex content env root files media
  refine ⟨?_, process_dry_no_effects ex content (env media) root media, ?_, ?_⟩
  · induction files with
    | nil => rfl
    | cons f rest ih =>
      have hf := file_step_dry_no_effects ex content env root f
      simp only [run_batch]
      rw [hf, ih]
      rfl
  · intro h
    exact ⟨process_skip ex content (env media) root media true h,
           process_skip ex content (env media) root media false h⟩
  · intro jf h1 h2
    exact ⟨process_decode_error ex content (env media) root media jf true h1 h2,
           process_decode_error ex content (env media) root media jf false h1 h2⟩

/-- Witness for C8: a concrete dry run over two files performs no
effects, and skip and decode-error classification agree with the live
run at concrete inputs. -/
theorem C8_dry_run_pure_witness :
    (run_batch (onlyFile (photoJpg.with_suffix ".jpg.suppl.json")) (fun _ => emptyObjText)
      (fun _ => allOkEnv) ["o"] true [photoJpg, clipMp4]).2 = []
  ∧ process_media_file (fun _ => false) (fun _ => emptyObjText) allOkEnv ["o"]
      photoJpg true = (true, [])
  ∧ process_media_file (fun _ => false) (fun _ => emptyObjText) allOkEnv ["o"]
      photoJpg false = (true, [])
  ∧ process_media_file (onlyFile (photoJpg.with_suffix ".jpg.suppl.json"))
      (fun _ => "\x7bbad") allOkEnv ["o"] photoJpg true = (false, [])
  ∧ process_media_file (onlyFile (photoJpg.with_suffix ".jpg.suppl.json"))
      (fun _ => "\x7bbad") allOkEnv ["o"] photoJpg false = (false, []) := by
  have h1 := (C8_dry_run_pure (onlyFile (photoJpg.with_suffix ".jpg.suppl.json"))
    (fun _ => emptyObjText) (fun _ => allOkEnv) ["o"] [photoJpg, clipMp4] photoJpg).1
  have h2 := (C8_dry_run_pure (fun _ => false) (fun _ => emptyObjText)
    (fun _ => allOkEnv) ["o"] [] photoJpg).2.2.1 rfl
  have h3 := (C8_dry_run_pure (onlyFile (photoJpg.with_suffix ".jpg.suppl.json"))
    (fun _ => "\x7bbad") (fun _ => allOkEnv) ["o"] [] photoJpg).2.2.2
    (photoJpg.with_suffix ".jpg.suppl.json") (by decide) rfl
  exact ⟨h1, h2.1, h2.2, h3.1, h3.2⟩

end MediaExif
